import Mathlib

/-!
# Verification of the FT SRAM individualization provisioning core

Shallow embedding of
`sw/device/silicon_creator/manuf/skus/earlgrey_a0/generic/sram_ft_individualize.c`
and of the shared attestation size contract in
`sw/device/silicon_creator/lib/attestation.h`.

The dispatcher (`command_processor`) and the startup routine (`sram_main`)
are embedded as deterministic functions over

* an input stream: the list of results of successive
  `ujson_deserialize_ft_individualize_command_t` calls (each yields a
  status and an out-parameter command value);
* an environment recording the results that the external hardware-access
  layer and the external transport-serialization layer return on their
  `n`-th invocation.

External collaborators not present in the excerpt (the `TRY`,
`CHECK_STATUS_OK`, `RESP_OK_STATUS` and `RESP_ERR` macros, the lifecycle
check helper and the hardware partition-write functions) are modelled from
the spec: `TRY` propagates a non-OK status as the function result,
`CHECK_STATUS_OK` fail-stops the whole process on a non-OK status,
`RESP_OK_STATUS`/`RESP_ERR` each serialize exactly one response record per
call and propagate a serialization failure, and each hardware-access call
is atomic: it either fully commits (OK) or fails.  `LOG_INFO` output is
console-only and is not modelled; `LOG_ERROR` on the unrecognized-command
path is recorded in the trace because the spec makes local error logging
part of that path's contract.
-/

namespace OpenTitan

/-- Status values of the `status_t` result type.  `ok` is `OK_STATUS()`,
`invalidArgument` is `INVALID_ARGUMENT()`, `internal` is `INTERNAL()`,
and `err code` stands for any other error status produced by the
hardware-access or transport layer. -/
inductive Status where
  | ok
  | invalidArgument
  | internal
  | err (code : Nat)
  deriving DecidableEq, Repr

/-- `status_ok`: only `OK_STATUS()` is OK. -/
def Status.isOk : Status → Bool
  | .ok => true
  | _ => false

/-- The three OTP-partition write operations of the hardware-access layer:
`manuf_individualize_device_creator_sw_cfg`,
`manuf_individualize_device_owner_sw_cfg` and
`manuf_individualize_device_hw_cfg`. -/
inductive HwAction where
  | creatorSwCfg
  | ownerSwCfg
  | hwCfg
  deriving DecidableEq, Repr

/-- The `ft_individualize_command_t` values dispatched by the `switch`.
`unrecognized raw` wraps any wire value that matches none of the five
named enumerators (the `default:` case). -/
inductive Cmd where
  | writeAll
  | otpCreatorSwCfgWrite
  | otpOwnerSwCfgWrite
  | otpHwCfgWrite
  | done
  | unrecognized (raw : Nat)
  deriving DecidableEq, Repr

/-- The partition writes a command performs, in the order the `switch`
case issues them. -/
def Cmd.actions : Cmd → List HwAction
  | .writeAll => [.creatorSwCfg, .ownerSwCfg, .hwCfg]
  | .otpCreatorSwCfgWrite => [.creatorSwCfg]
  | .otpOwnerSwCfgWrite => [.ownerSwCfg]
  | .otpHwCfgWrite => [.hwCfg]
  | .done => []
  | .unrecognized _ => []

/-- The four commands whose case writes at least one partition. -/
def Cmd.isWrite : Cmd → Bool
  | .writeAll => true
  | .otpCreatorSwCfgWrite => true
  | .otpOwnerSwCfgWrite => true
  | .otpHwCfgWrite => true
  | _ => false

/-- Result of one `ujson_deserialize_ft_individualize_command_t` call:
the returned status and the command out-parameter (which carries
meaningful data only when the status is OK, exactly as in C). -/
structure DeserItem where
  status : Status
  cmd : Cmd
  deriving DecidableEq, Repr

/-- A successfully deserialized command. -/
def recv (c : Cmd) : DeserItem := ⟨.ok, c⟩

/-- Modelled from the spec: results of the external layers.  `hwRes n` is
the status returned by the `n`-th hardware-access (partition-write) call;
`respRes n` is the status returned by the `n`-th response-serialization
call (`ujson_serialize_status_t`).  Each call is atomic: it either fully
commits (OK) or reports failure. -/
structure Env where
  hwRes : Nat → Status
  respRes : Nat → Status

/-- Run a `CHECK_STATUS_OK`-guarded sequence of hardware-access calls
starting at global hardware-call index `hwIdx`.  Returns the list of
actions actually invoked, the next index, and whether all calls
succeeded; `CHECK_STATUS_OK` fail-stops at the first non-OK status, so
no action after the failing one is invoked. -/
def runHw (env : Env) (hwIdx : Nat) : List HwAction → List HwAction × Nat × Bool
  | [] => ([], hwIdx, true)
  | a :: rest =>
    if (env.hwRes hwIdx).isOk then
      let t := runHw env (hwIdx + 1) rest
      (a :: t.1, t.2.1, t.2.2)
    else
      ([a], hwIdx + 1, false)

/-- How one iteration of the `while (true)` loop in `command_processor`
ends.  Each constructor carries the response records emitted, the
hardware actions invoked and the raw values error-logged during the
iteration.  `breakLoop` would be a C `break` out of the `while` loop —
the only way to reach the trailing `return INTERNAL();` — and is listed
so that its unreachability is expressible. -/
inductive BodyResult where
  | ret (s : Status) (resps : List Status) (hw : List HwAction) (logs : List Nat)
  | fatal (resps : List Status) (hw : List HwAction) (logs : List Nat)
  | next (resps : List Status) (hw : List HwAction) (logs : List Nat)
      (hwIdx respIdx : Nat)
  | breakLoop (resps : List Status) (hw : List HwAction) (logs : List Nat)
  deriving DecidableEq, Repr

/-- One iteration of the `while (true)` loop of `command_processor`,
given the result `item` of this iteration's deserialize call.
`hwIdx` and `respIdx` are the global indices of the next
hardware-access and response-serialization calls. -/
def cpBody (env : Env) (hwIdx respIdx : Nat) (item : DeserItem) : BodyResult :=
  if item.status.isOk then
    match item.cmd with
    | .done =>
        if (env.respRes respIdx).isOk then
          .ret .ok [.ok] [] []
        else
          .ret (env.respRes respIdx) [] [] []
    | .unrecognized raw =>
        if (env.respRes respIdx).isOk then
          if (env.respRes (respIdx + 1)).isOk then
            .next [.invalidArgument, .ok] [] [raw] hwIdx (respIdx + 2)
          else
            .ret (env.respRes (respIdx + 1)) [.invalidArgument] [] [raw]
        else
          .ret (env.respRes respIdx) [] [] [raw]
    | c =>
        let t := runHw env hwIdx (Cmd.actions c)
        if t.2.2 then
          if (env.respRes respIdx).isOk then
            .next [.ok] t.1 [] t.2.1 (respIdx + 1)
          else
            .ret (env.respRes respIdx) [] t.1 []
        else
          .fatal [] t.1 []
  else
    .ret item.status [] [] []

/-- How a whole run of `command_processor` ends. -/
inductive Outcome where
  | blocked
  | ret (s : Status)
  | fellThrough
  | fatal
  deriving DecidableEq, Repr

/-- Observable trace of a run of `command_processor`: the response
records emitted on the transport, the hardware actions invoked, the raw
command values error-logged, and how the run ended. -/
structure Trace where
  responses : List Status
  hwCalls : List HwAction
  errLogs : List Nat
  outcome : Outcome
  deriving DecidableEq, Repr

/-- The `command_processor` dispatch loop, run on the list of results of
the successive deserialize calls.  An empty list means the transport
never yields another command, so the loop stays blocked in its await. -/
def command_processor (env : Env) : Nat → Nat → List DeserItem → Trace
  | _, _, [] => ⟨[], [], [], .blocked⟩
  | hwIdx, respIdx, item :: rest =>
    match cpBody env hwIdx respIdx item with
    | .ret s rs hs ls => ⟨rs, hs, ls, .ret s⟩
    | .fatal rs hs ls => ⟨rs, hs, ls, .fatal⟩
    | .breakLoop rs hs ls => ⟨rs, hs, ls, .fellThrough⟩
    | .next rs hs ls hwIdx2 respIdx2 =>
      let t := command_processor env hwIdx2 respIdx2 rest
      ⟨rs ++ t.responses, hs ++ t.hwCalls, ls ++ t.errLogs, t.outcome⟩

/-- Modelled from the spec: the device lifecycle states exposed by the
lifecycle controller.  `testUnlocked1` is `kDifLcCtrlStateTestUnlocked1`,
the single authorized manufacturing state; `stateOther n` stands for any
of the other lifecycle states. -/
inductive LcState where
  | testUnlocked1
  | stateOther (n : Nat)
  deriving DecidableEq, Repr

/-- Modelled from the spec: `lc_ctrl_testutils_check_lc_state` reads the
current lifecycle state and compares it with the expected one, returning
OK on a match and a non-OK status on a mismatch. -/
def lc_ctrl_testutils_check_lc_state (cur expected : LcState) : Status :=
  if cur = expected then .ok else .internal

/-- How a whole run of `sram_main` ends: `halted` is the deliberate
`abort()` park after a successful provisioning run, `fatalAbort` is the
fail-stop of any `CHECK_STATUS_OK`, and `blocked` means the command loop
is still awaiting input. -/
inductive MainOutcome where
  | halted
  | fatalAbort
  | blocked
  deriving DecidableEq, Repr

/-- Observable trace of a run of `sram_main`. -/
structure MainTrace where
  responses : List Status
  hwCalls : List HwAction
  errLogs : List Nat
  outcome : MainOutcome
  deriving DecidableEq, Repr

/-- The `sram_main` entry point.  `initRes` is the status of
`peripheral_handles_init` (glue, guarded by `CHECK_STATUS_OK`);
`lcState` is the lifecycle state the controller reports.
`pinmux_testutils_init` and `ottf_console_init` are void console glue
with no observable effect on this trace. -/
def sram_main (env : Env) (initRes : Status) (lcState : LcState)
    (input : List DeserItem) : MainTrace :=
  if initRes.isOk then
    if (lc_ctrl_testutils_check_lc_state lcState .testUnlocked1).isOk then
      let t := command_processor env 0 0 input
      match t.outcome with
      | .ret s =>
          if s.isOk then ⟨t.responses, t.hwCalls, t.errLogs, .halted⟩
          else ⟨t.responses, t.hwCalls, t.errLogs, .fatalAbort⟩
      | .fellThrough => ⟨t.responses, t.hwCalls, t.errLogs, .fatalAbort⟩
      | .fatal => ⟨t.responses, t.hwCalls, t.errLogs, .fatalAbort⟩
      | .blocked => ⟨t.responses, t.hwCalls, t.errLogs, .blocked⟩
    else
      ⟨[], [], [], .fatalAbort⟩
  else
    ⟨[], [], [], .fatalAbort⟩

/-- An environment in which every hardware-access and every
response-serialization call succeeds. -/
def envAllOk : Env := ⟨fun _ => .ok, fun _ => .ok⟩

/-- An environment in which the first hardware-access call succeeds, the
second one fails, and all response serializations succeed. -/
def envSecondHwFails : Env :=
  ⟨fun n => if n = 0 then .ok else .err 7, fun _ => .ok⟩

/-- An environment in which every hardware-access call fails and all
response serializations succeed. -/
def envHwFails : Env := ⟨fun _ => .err 3, fun _ => .ok⟩

/-! ## Shared attestation size contract (`attestation.h`) -/

/-- Size of the additional seed for attestation key generation in bits. -/
def kAttestationSeedBits : Nat := 320

/-- Size of the additional seed for attestation key generation in bytes. -/
def kAttestationSeedBytes : Nat := kAttestationSeedBits / 8

/-- Size of the additional seed for attestation key generation in 32b
words (`sizeof(uint32_t) = 4`). -/
def kAttestationSeedWords : Nat := kAttestationSeedBytes / 4

/-- Size of a coordinate for an attestation public key in bits. -/
def kAttestationPublicKeyCoordBits : Nat := 256

/-- Size of a coordinate for an attestation public key in bytes. -/
def kAttestationPublicKeyCoordBytes : Nat := kAttestationPublicKeyCoordBits / 8

/-- Size of a coordinate for an attestation public key in 32b words. -/
def kAttestationPublicKeyCoordWords : Nat := kAttestationPublicKeyCoordBytes / 4

/-- Size of an attestation signature in bits. -/
def kAttestationSignatureBits : Nat := 512

/-- Size of an attestation signature in bytes. -/
def kAttestationSignatureBytes : Nat := kAttestationSignatureBits / 8

/-- Size of an attestation signature in 32b words. -/
def kAttestationSignatureWords : Nat := kAttestationSignatureBytes / 4

/-- `attestation_seed_t`: an array of `kAttestationSeedWords` 32-bit
words (words modelled as `Nat` below `2^32`). -/
structure attestation_seed_t where
  seed : List Nat
  seed_len : seed.length = kAttestationSeedWords

/-- `attestation_public_key_t`: affine x- and y-coordinates, each an
array of `kAttestationPublicKeyCoordWords` 32-bit words. -/
structure attestation_public_key_t where
  x : List Nat
  y : List Nat
  x_len : x.length = kAttestationPublicKeyCoordWords
  y_len : y.length = kAttestationPublicKeyCoordWords

/-- `attestation_signature_t`: an array of `kAttestationSignatureWords`
32-bit words. -/
structure attestation_signature_t where
  sig : List Nat
  sig_len : sig.length = kAttestationSignatureWords

/-- Little-endian byte encoding of one 32-bit word. -/
def wordBytes (w : Nat) : List Nat :=
  [w % 256, w / 2 ^ 8 % 256, w / 2 ^ 16 % 256, w / 2 ^ 24 % 256]

/-- Byte encoding of an array of 32-bit words. -/
def wordsBytes (ws : List Nat) : List Nat := (ws.map wordBytes).flatten

/-- In-memory byte image of an `attestation_seed_t`. -/
def attestation_seed_t.bytes (s : attestation_seed_t) : List Nat :=
  wordsBytes s.seed

/-- In-memory byte image of an `attestation_public_key_t` (the `x` array
followed by the `y` array; both are word arrays, so there is no
padding). -/
def attestation_public_key_t.bytes (k : attestation_public_key_t) : List Nat :=
  wordsBytes k.x ++ wordsBytes k.y

/-- In-memory byte image of an `attestation_signature_t`. -/
def attestation_signature_t.bytes (s : attestation_signature_t) : List Nat :=
  wordsBytes s.sig

/-! ## Helper lemmas -/

/-- `status_ok` on the success status. -/
theorem isOk_ok : Status.ok.isOk = true := rfl

/-- `status_ok` on the invalid-argument error status. -/
theorem isOk_invalidArgument : Status.invalidArgument.isOk = false := rfl

/-- `status_ok` on the internal error status. -/
theorem isOk_internal : Status.internal.isOk = false := rfl

/-- `status_ok` on any other error status. -/
theorem isOk_err (code : Nat) : (Status.err code).isOk = false := rfl

/-- If every hardware-access call succeeds, a `CHECK_STATUS_OK`-guarded
sequence performs all its actions in order. -/
theorem runHw_all_ok (env : Env) (hhw : ∀ n, (env.hwRes n).isOk = true) :
    ∀ (acts : List HwAction) (i : Nat), runHw env i acts = (acts, i + acts.length, true) := by
  intro acts
  induction acts with
  | nil => intro i; simp [runHw]
  | cons a rest ih =>
    intro i
    simp [runHw, hhw i, ih (i + 1)]
    omega

/-- The actions a `CHECK_STATUS_OK`-guarded sequence actually invokes are
always an order-preserving front segment of the requested action list. -/
theorem runHw_calls_take (env : Env) (i : Nat) (acts : List HwAction) :
    ∃ k, (runHw env i acts).1 = acts.take k := by
  induction acts generalizing i with
  | nil => exact ⟨0, rfl⟩
  | cons a rest ih =>
    by_cases h : (env.hwRes i).isOk = true
    · obtain ⟨k, hk⟩ := ih (i + 1)
      exact ⟨k + 1, by simp [runHw, h, hk]⟩
    · refine ⟨1, ?_⟩
      simp at h
      simp [runHw, h]

/-- The loop body never executes a `break` out of the `while (true)`
loop: every iteration ends in a `return`, a `CHECK_STATUS_OK` fail-stop,
or falls to the next iteration. -/
theorem cpBody_ne_breakLoop (env : Env) (i r : Nat) (item : DeserItem)
    (rs : List Status) (hs : List HwAction) (ls : List Nat) :
    cpBody env i r item ≠ .breakLoop rs hs ls := by
  rcases item with ⟨s, c⟩
  by_cases h1 : s.isOk = true
  · cases c <;> simp [cpBody, h1] <;> split <;> (try split) <;> simp
  · simp [cpBody, h1]

/-- No run of the dispatch loop ever reaches the trailing
`return INTERNAL();`. -/
theorem command_processor_no_fallthrough (env : Env) :
    ∀ (input : List DeserItem) (i r : Nat),
      (command_processor env i r input).outcome ≠ .fellThrough := by
  intro input
  induction input with
  | nil => intro i r; simp [command_processor]
  | cons item rest ih =>
    intro i r
    rcases hb : cpBody env i r item with ⟨s, rs, hsl, ls⟩ | ⟨rs, hsl, ls⟩ |
      ⟨rs, hsl, ls, i2, r2⟩ | ⟨rs, hsl, ls⟩
    · simp [command_processor, hb]
    · simp [command_processor, hb]
    · simp [command_processor, hb]
      exact ih i2 r2
    · exact absurd hb (cpBody_ne_breakLoop env i r item rs hsl ls)

/-- Byte length of the encoding of a word array. -/
theorem wordsBytes_length (ws : List Nat) : (wordsBytes ws).length = 4 * ws.length := by
  induction ws with
  | nil => simp [wordsBytes]
  | cons w rest ih =>
    simp [wordsBytes, wordBytes] at *
    omega

/-! ## Claims -/

/-- Claim C1, counterexample: the claim that the protocol never emits
more than one response per received command is false.  On the input
sequence `[unrecognized 255, done]` (2 commands received, ending in the
terminal command) the dispatcher emits 3 responses, because the
`default:` case of the `switch` emits the invalid-argument error response
and then falls through to the shared success response. -/
theorem c1_counterexample :
    (command_processor envAllOk 0 0 [recv (.unrecognized 255), recv .done]).responses =
      [.invalidArgument, .ok, .ok] ∧
    (command_processor envAllOk 0 0
        [recv (.unrecognized 255), recv .done]).responses.length = 3 ∧
    [recv (Cmd.unrecognized 255), recv .done].length = 2 := by
  exact ⟨rfl, rfl, rfl⟩

/-- Claim C1, amended: after every successfully handled recognized
command exactly one success response is emitted, and for every command
sequence of recognized (write) commands ending in the terminal command,
with all hardware-access and response-serialization calls succeeding,
the number of responses emitted equals the number of commands received
and the last response is the terminal success response.  (An
unrecognized command instead gets two responses: an invalid-argument
error followed by a success.) -/
theorem c1_amended (env : Env) (cmds : List Cmd)
    (hcmds : ∀ c ∈ cmds, c.isWrite = true)
    (hhw : ∀ n, (env.hwRes n).isOk = true)
    (hresp : ∀ n, (env.respRes n).isOk = true) :
    ∀ hwIdx respIdx,
      command_processor env hwIdx respIdx (cmds.map recv ++ [recv .done]) =
        ⟨List.replicate (cmds.length + 1) .ok, (cmds.map Cmd.actions).flatten, [],
          .ret .ok⟩ := by
  induction cmds with
  | nil =>
    intro i r
    simp [command_processor, cpBody, recv, isOk_ok, hresp r]
  | cons c cs ih =>
    intro i r
    have hc : c.isWrite = true := hcmds c (List.mem_cons_self ..)
    have hrest : ∀ x ∈ cs, x.isWrite = true := fun x hx =>
      hcmds x (List.mem_cons_of_mem _ hx)
    have hrun := runHw_all_ok env hhw (Cmd.actions c) i
    have ihs := ih hrest
    simp only [recv] at ihs
    cases c with
    | done => simp [Cmd.isWrite] at hc
    | unrecognized raw => simp [Cmd.isWrite] at hc
    | writeAll =>
      simp [command_processor, cpBody, recv, isOk_ok, hrun, hresp r, ihs,
        List.replicate_succ]
    | otpCreatorSwCfgWrite =>
      simp [command_processor, cpBody, recv, isOk_ok, hrun, hresp r, ihs,
        List.replicate_succ]
    | otpOwnerSwCfgWrite =>
      simp [command_processor, cpBody, recv, isOk_ok, hrun, hresp r, ihs,
        List.replicate_succ]
    | otpHwCfgWrite =>
      simp [command_processor, cpBody, recv, isOk_ok, hrun, hresp r, ihs,
        List.replicate_succ]

/-- Witness for `c1_amended` at a concrete input. -/
theorem c1_amended_witness :
    command_processor envAllOk 0 0
        ([Cmd.writeAll, Cmd.otpOwnerSwCfgWrite].map recv ++ [recv .done]) =
      ⟨List.replicate 3 .ok,
        ([Cmd.writeAll, Cmd.otpOwnerSwCfgWrite].map Cmd.actions).flatten, [],
        .ret .ok⟩ :=
  c1_amended envAllOk [Cmd.writeAll, Cmd.otpOwnerSwCfgWrite] (by decide)
    (fun _ => rfl) (fun _ => rfl) 0 0

/-- Claim C2: on an unrecognized command value the dispatcher logs the
raw value locally, responds with the invalid-argument application error,
and continues the loop: the run on the remaining input proceeds exactly
as it would have, so a subsequent valid command is awaited and processed
without a restart. -/
theorem c2_unrecognized_continues (env : Env) (hwIdx respIdx raw : Nat)
    (rest : List DeserItem)
    (h1 : (env.respRes respIdx).isOk = true)
    (h2 : (env.respRes (respIdx + 1)).isOk = true) :
    command_processor env hwIdx respIdx (recv (.unrecognized raw) :: rest) =
      ⟨.invalidArgument :: .ok ::
          (command_processor env hwIdx (respIdx + 2) rest).responses,
        (command_processor env hwIdx (respIdx + 2) rest).hwCalls,
        raw :: (command_processor env hwIdx (respIdx + 2) rest).errLogs,
        (command_processor env hwIdx (respIdx + 2) rest).outcome⟩ := by
  simp [command_processor, cpBody, recv, isOk_ok, h1, h2]

/-- Witness for `c2_unrecognized_continues` at a concrete input. -/
theorem c2_witness :
    command_processor envAllOk 0 0 [recv (.unrecognized 255), recv .done] =
      ⟨.invalidArgument :: .ok ::
          (command_processor envAllOk 0 2 [recv .done]).responses,
        (command_processor envAllOk 0 2 [recv .done]).hwCalls,
        255 :: (command_processor envAllOk 0 2 [recv .done]).errLogs,
        (command_processor envAllOk 0 2 [recv .done]).outcome⟩ :=
  c2_unrecognized_continues envAllOk 0 0 255 [recv .done] rfl rfl

/-- Claim C3: for the write-all command the partition writes are issued
in the fixed order creator-config, owner-config, hardware-config (the
calls made are always a front segment of that list), and when an earlier
action fails no later action is invoked: if the first call succeeds and
the second fails, exactly creator-config and owner-config are invoked
and the run fail-stops; if the first call fails, only creator-config is
invoked. -/
theorem c3_write_all_order (env : Env) (hwIdx respIdx : Nat)
    (rest : List DeserItem) :
    (∃ k, (runHw env hwIdx (Cmd.actions .writeAll)).1 =
        [HwAction.creatorSwCfg, .ownerSwCfg, .hwCfg].take k) ∧
    ((env.hwRes hwIdx).isOk = true → (env.hwRes (hwIdx + 1)).isOk = false →
      command_processor env hwIdx respIdx (recv .writeAll :: rest) =
        ⟨[], [.creatorSwCfg, .ownerSwCfg], [], .fatal⟩) ∧
    ((env.hwRes hwIdx).isOk = false →
      command_processor env hwIdx respIdx (recv .writeAll :: rest) =
        ⟨[], [.creatorSwCfg], [], .fatal⟩) := by
  refine ⟨runHw_calls_take env hwIdx _, ?_, ?_⟩
  · intro h1 h2
    simp [command_processor, cpBody, recv, isOk_ok, Cmd.actions, runHw, h1, h2]
  · intro h1
    simp [command_processor, cpBody, recv, isOk_ok, Cmd.actions, runHw, h1]

/-- Witness for `c3_write_all_order` at a concrete input: the second
hardware call fails, so the hardware-config write is never invoked. -/
theorem c3_witness :
    command_processor envSecondHwFails 0 0 [recv .writeAll] =
      ⟨[], [.creatorSwCfg, .ownerSwCfg], [], .fatal⟩ :=
  (c3_write_all_order envSecondHwFails 0 0 []).2.1 rfl rfl

/-- Claim C4: a hardware-access failure during a partition write is
fatal: the dispatcher fail-stops immediately, the trace ends regardless
of any further queued commands (the loop does not continue), no success
response is emitted for the in-flight command, and only a front segment
of the command's action list was invoked. -/
theorem c4_hw_failure_fatal (env : Env) (hwIdx respIdx : Nat) (c : Cmd)
    (rest : List DeserItem)
    (hc : c.isWrite = true)
    (hfail : (runHw env hwIdx (Cmd.actions c)).2.2 = false) :
    command_processor env hwIdx respIdx (recv c :: rest) =
      ⟨[], (runHw env hwIdx (Cmd.actions c)).1, [], .fatal⟩ ∧
    ∃ k, (runHw env hwIdx (Cmd.actions c)).1 = (Cmd.actions c).take k := by
  refine ⟨?_, runHw_calls_take env hwIdx _⟩
  cases c with
  | done => simp [Cmd.isWrite] at hc
  | unrecognized raw => simp [Cmd.isWrite] at hc
  | writeAll => simp [command_processor, cpBody, recv, isOk_ok, hfail]
  | otpCreatorSwCfgWrite => simp [command_processor, cpBody, recv, isOk_ok, hfail]
  | otpOwnerSwCfgWrite => simp [command_processor, cpBody, recv, isOk_ok, hfail]
  | otpHwCfgWrite => simp [command_processor, cpBody, recv, isOk_ok, hfail]

/-- Witness for `c4_hw_failure_fatal` at a concrete input: the
hardware-config write fails and the queued done command is never
processed. -/
theorem c4_witness :
    command_processor envHwFails 0 0 [recv .otpHwCfgWrite, recv .done] =
      ⟨[], (runHw envHwFails 0 (Cmd.actions .otpHwCfgWrite)).1, [], .fatal⟩ ∧
    ∃ k, (runHw envHwFails 0 (Cmd.actions .otpHwCfgWrite)).1 =
        (Cmd.actions .otpHwCfgWrite).take k :=
  c4_hw_failure_fatal envHwFails 0 0 .otpHwCfgWrite [recv .done] rfl rfl

/-- Claim C5: in any lifecycle state other than TEST_UNLOCKED1 the
startup guard fail-stops the run before any command is read: the trace
shows zero responses, zero partition writes and a fatal abort, whatever
commands are queued (and whatever the peripheral-init status was). -/
theorem c5_lifecycle_guard (env : Env) (initRes : Status) (n : Nat)
    (input : List DeserItem) :
    sram_main env initRes (.stateOther n) input = ⟨[], [], [], .fatalAbort⟩ := by
  cases initRes <;>
    simp [sram_main, lc_ctrl_testutils_check_lc_state, isOk_ok, isOk_internal,
      isOk_invalidArgument, isOk_err]

/-- Claim C6: on the done command the dispatcher emits one final success
response, performs no partition write for it, and returns out of the
loop without touching any queued later command; `sram_main` then reaches
the deliberate halt, so no further command is ever processed. -/
theorem c6_done_terminal (env : Env) (hwIdx respIdx : Nat)
    (rest : List DeserItem)
    (hresp : ∀ n, (env.respRes n).isOk = true) :
    command_processor env hwIdx respIdx (recv .done :: rest) =
      ⟨[.ok], [], [], .ret .ok⟩ ∧
    sram_main env .ok .testUnlocked1 (recv .done :: rest) =
      ⟨[.ok], [], [], .halted⟩ := by
  have h1 : ∀ i r, command_processor env i r (recv Cmd.done :: rest) =
      ⟨[.ok], [], [], .ret .ok⟩ := by
    intro i r
    simp [command_processor, cpBody, recv, isOk_ok, hresp r]
  refine ⟨h1 hwIdx respIdx, ?_⟩
  simp [sram_main, lc_ctrl_testutils_check_lc_state, isOk_ok, h1 0 0]

/-- Witness for `c6_done_terminal` at a concrete input. -/
theorem c6_witness :
    command_processor envAllOk 0 0 [recv .done] = ⟨[.ok], [], [], .ret .ok⟩ ∧
    sram_main envAllOk .ok .testUnlocked1 [recv .done] =
      ⟨[.ok], [], [], .halted⟩ :=
  c6_done_terminal envAllOk 0 0 [] (fun _ => rfl)

/-- Claim C7: each single-partition command performs exactly one
partition write, targeting only its named partition, and then emits one
success response; the rest of the run is unchanged. -/
theorem c7_single_partition (env : Env) (hwIdx respIdx : Nat) (c : Cmd)
    (p : HwAction) (rest : List DeserItem)
    (hcp : (c = .otpCreatorSwCfgWrite ∧ p = .creatorSwCfg) ∨
        (c = .otpOwnerSwCfgWrite ∧ p = .ownerSwCfg) ∨
        (c = .otpHwCfgWrite ∧ p = .hwCfg))
    (hhw : (env.hwRes hwIdx).isOk = true)
    (hresp : (env.respRes respIdx).isOk = true) :
    command_processor env hwIdx respIdx (recv c :: rest) =
      ⟨.ok :: (command_processor env (hwIdx + 1) (respIdx + 1) rest).responses,
        p :: (command_processor env (hwIdx + 1) (respIdx + 1) rest).hwCalls,
        (command_processor env (hwIdx + 1) (respIdx + 1) rest).errLogs,
        (command_processor env (hwIdx + 1) (respIdx + 1) rest).outcome⟩ := by
  rcases hcp with ⟨hc, hp⟩ | ⟨hc, hp⟩ | ⟨hc, hp⟩ <;> subst hc <;> subst hp <;>
    simp [command_processor, cpBody, recv, isOk_ok, Cmd.actions, runHw, hhw, hresp]

/-- Witness for `c7_single_partition` at a concrete input. -/
theorem c7_witness :
    command_processor envAllOk 0 0 [recv .otpOwnerSwCfgWrite, recv .done] =
      ⟨.ok :: (command_processor envAllOk 1 1 [recv .done]).responses,
        HwAction.ownerSwCfg ::
          (command_processor envAllOk 1 1 [recv .done]).hwCalls,
        (command_processor envAllOk 1 1 [recv .done]).errLogs,
        (command_processor envAllOk 1 1 [recv .done]).outcome⟩ :=
  c7_single_partition envAllOk 0 0 .otpOwnerSwCfgWrite .ownerSwCfg [recv .done]
    (Or.inr (Or.inl ⟨rfl, rfl⟩)) rfl rfl

/-- Claim C9: when a deserialize call fails, `command_processor` returns
that error at once — no response is emitted for it, no partition is
written, and the loop does not continue — and `sram_main`'s
`CHECK_STATUS_OK` turns the propagated error into a fatal abort of the
whole run. -/
theorem c9_decode_error_fatal (env : Env) (hwIdx respIdx : Nat) (s : Status)
    (c : Cmd) (rest : List DeserItem) (hs : s.isOk = false) :
    command_processor env hwIdx respIdx (⟨s, c⟩ :: rest) =
      ⟨[], [], [], .ret s⟩ ∧
    sram_main env .ok .testUnlocked1 (⟨s, c⟩ :: rest) =
      ⟨[], [], [], .fatalAbort⟩ := by
  have h1 : ∀ i r, command_processor env i r (DeserItem.mk s c :: rest) =
      ⟨[], [], [], .ret s⟩ := by
    intro i r
    simp [command_processor, cpBody, hs]
  refine ⟨h1 hwIdx respIdx, ?_⟩
  simp [sram_main, lc_ctrl_testutils_check_lc_state, isOk_ok, h1 0 0, hs]

/-- Witness for `c9_decode_error_fatal` at a concrete input. -/
theorem c9_witness :
    command_processor envAllOk 0 0 [⟨.err 9, .done⟩] =
      ⟨[], [], [], .ret (.err 9)⟩ ∧
    sram_main envAllOk .ok .testUnlocked1 [⟨.err 9, .done⟩] =
      ⟨[], [], [], .fatalAbort⟩ :=
  c9_decode_error_fatal envAllOk 0 0 (.err 9) .done [] rfl

/-- Claim C10: the `return INTERNAL();` placed after the dispatch loop
is unreachable: no iteration of the loop body ever breaks out of the
`while (true)` loop, so no run of `command_processor`, on any input and
any environment, ends by falling through the loop. -/
theorem c10_internal_unreachable (env : Env) (hwIdx respIdx : Nat)
    (item : DeserItem) (rs : List Status) (hs : List HwAction) (ls : List Nat)
    (input : List DeserItem) :
    cpBody env hwIdx respIdx item ≠ .breakLoop rs hs ls ∧
    (command_processor env hwIdx respIdx input).outcome ≠ .fellThrough :=
  ⟨cpBody_ne_breakLoop env hwIdx respIdx item rs hs ls,
    command_processor_no_fallthrough env input hwIdx respIdx⟩

/-- Claim C8: the shared attestation size contract: a seed is exactly
320 bits = 40 bytes = 10 words, a public-key coordinate exactly 256 bits
= 32 bytes = 8 words (two coordinates), a signature exactly 512 bits =
64 bytes = 16 words, and the byte images of the aggregate structures are
exactly 40, 64 and 64 bytes. -/
theorem c8_attestation_sizes :
    kAttestationSeedBits = 320 ∧ kAttestationSeedBytes = 40 ∧
    kAttestationSeedWords = 10 ∧
    kAttestationPublicKeyCoordBits = 256 ∧
    kAttestationPublicKeyCoordBytes = 32 ∧
    kAttestationPublicKeyCoordWords = 8 ∧
    kAttestationSignatureBits = 512 ∧ kAttestationSignatureBytes = 64 ∧
    kAttestationSignatureWords = 16 ∧
    (∀ s : attestation_seed_t, s.bytes.length = 40) ∧
    (∀ k : attestation_public_key_t, k.bytes.length = 64) ∧
    (∀ g : attestation_signature_t, g.bytes.length = 64) := by
  refine ⟨rfl, rfl, rfl, rfl, rfl, rfl, rfl, rfl, rfl, ?_, ?_, ?_⟩
  · intro s
    have := s.seed_len
    simp [attestation_seed_t.bytes, wordsBytes_length, this]
    rfl
  · intro k
    have hx := k.x_len
    have hy := k.y_len
    simp [attestation_public_key_t.bytes, wordsBytes_length, hx, hy]
    rfl
  · intro g
    have := g.sig_len
    simp [attestation_signature_t.bytes, wordsBytes_length, this]
    rfl

end OpenTitan
